import Mathlib

/-!
Verification of the NCCL receive thunk (`xla/service/gpu/nccl_recv_thunk.cc`,
`NcclRecvThunk::RunNcclCollective`) against its design specification.

The embedding models one invocation of `RunNcclCollective` for a fixed device
execution context.  Machine integers (`int64_t`) are modelled as `Int`; the
per-context execution counter registry is modelled as an `Option Int` (the
counter for the current context: `none` when it has not been created yet).
Device-side work is recorded as a list of issued operations, and the
`absl::Status` result as an explicit success/error value.
-/

namespace NcclRecv

/-- A device memory region (`se::DeviceMemoryBase`): an opaque handle plus a
size in bytes. -/
structure DeviceMemoryBase where
  opaquePtr : Nat
  size : Nat
  deriving DecidableEq

/-- One resolved buffer pair (`DeviceBufferPair`): element type (opaque code),
element count, and the source/destination memory regions. -/
structure DeviceBufferPair where
  element_type : Nat
  element_count : Int
  source_buffer : DeviceMemoryBase
  destination_buffer : DeviceMemoryBase
  deriving DecidableEq

/-- `NcclP2PConfig::ValidationKind` from the header: `kInvalid`, `kValid`,
`kConditional`. -/
inductive ValidationKind where
  | kInvalid
  | kValid
  | kConditional
  deriving DecidableEq

/-- `NcclP2PConfig::SourceTargetMapEntry`: optional source and target ids for
one logical device. -/
structure SourceTargetMapEntry where
  source : Option Int
  target : Option Int
  deriving DecidableEq

/-- `CollectiveOpGroupMode`, restricted to the two variants the thunk reads. -/
inductive CollectiveOpGroupMode where
  | kCrossReplica
  | kCrossPartition
  deriving DecidableEq

/-- `DeviceAssignment::LogicalID`: replica id and computation (partition) id
of the executing device. -/
structure LogicalID where
  replica_id : Int
  computation_id : Int
  deriving DecidableEq

/-- The per-instruction configuration owned by the thunk (`NcclP2PConfig`
together with the group mode read from its inner collective config).  The two
maps (`absl` hash maps in the source) are modelled as association lists looked
up with `List.find?`. -/
structure NcclP2PConfig where
  group_mode : CollectiveOpGroupMode
  validation_kind : ValidationKind
  id_to_source_target : List (Int × SourceTargetMapEntry)
  source_target_to_bounds : List ((Int × Int) × (Int × Int))
  deriving DecidableEq

/-- Modelled from the spec: `NcclP2PConfig::GetSourceTarget` (declared in
`nccl_p2p_thunk_common.h`, not part of the excerpted sources).  Per §4.1 of
the design, `resolve` returns the recorded entry for the current id, and a
"no source, no target" entry when the id is absent from the topology. -/
def GetSourceTarget (m : List (Int × SourceTargetMapEntry)) (id : Int) :
    SourceTargetMapEntry :=
  match m.find? (fun p => p.1 == id) with
  | some p => p.2
  | none => { source := none, target := none }

/-- The current logical id: the replica id under cross-replica grouping, the
computation (partition) id otherwise (`nccl_recv_thunk.cc` lines 81-84). -/
def currentIdOf (mode : CollectiveOpGroupMode) (lid : LogicalID) : Int :=
  match mode with
  | .kCrossReplica => lid.replica_id
  | .kCrossPartition => lid.computation_id

/-- Modelled from the spec: `ExecutionCounters::GetCounter` (declared in
`nccl_collective_thunk.h`, not part of the excerpted sources).  Per §4.2 of
the design it is allocate-if-absent with zero initialization: it yields the
current counter value together with the registry state after the lookup. -/
def GetCounter (s : Option Int) : Int × Option Int :=
  match s with
  | some c => (c, some c)
  | none => (0, some 0)

/-- A device-side data operation issued on the stream: either an asynchronous
receive from a source peer (`nccl_api()->Recv`), or a zero-fill of a memory
region (`stream.MemZero`). -/
inductive DeviceOp where
  | recv (dest : DeviceMemoryBase) (elemType : Nat) (count : Int)
      (sourceId : Int)
  | memZero (dest : DeviceMemoryBase) (size : Nat)
  deriving DecidableEq

/-- The error statuses `RunNcclCollective` can produce itself:
`wrongBufferCount` for the `TF_RET_CHECK(device_buffers.size() == 1)` failure
and `missingBounds` for the `Missing bounds for conditional Recv` internal
error. -/
inductive RecvError where
  | wrongBufferCount (n : Nat)
  | missingBounds
  deriving DecidableEq

/-- The status returned by one invocation. -/
inductive RunResult where
  | ok
  | error (e : RecvError)
  deriving DecidableEq

/-- The observable outcome of one invocation: the returned status, the list of
device-side operations issued (in order), the counter registry state after the
invocation, and the final value of the local `should_run` variable (`none` on
paths where it is never fully evaluated). -/
structure RunOutcome where
  result : RunResult
  ops : List DeviceOp
  counter : Option Int
  should_run : Option Bool
  deriving DecidableEq

/-- Shallow embedding of `NcclRecvThunk::RunNcclCollective`
(`nccl_recv_thunk.cc` lines 67-140) for a fixed device context.

Inputs: the thunk configuration, the device buffer pairs produced by
`ConvertToDeviceBuffers` (the conversion result is taken as input; per §4.3
it yields one pair per operand buffer), the logical id of the executing
device as resolved by the device assignment, and the execution-counter
registry state for this context. -/
def RunNcclCollective (cfg : NcclP2PConfig)
    (device_buffers : List DeviceBufferPair) (lid : LogicalID)
    (counter0 : Option Int) : RunOutcome :=
  match device_buffers with
  | [buffer] =>
    let current_id := currentIdOf cfg.group_mode lid
    let source_target := GetSourceTarget cfg.id_to_source_target current_id
    let dest_addr := buffer.destination_buffer
    match source_target.source with
    | some source_id =>
      let should_run0 : Bool :=
        if cfg.validation_kind = ValidationKind.kInvalid then false else true
      if cfg.validation_kind = ValidationKind.kConditional then
        let counter := (GetCounter counter0).1
        let registry := (GetCounter counter0).2
        match cfg.source_target_to_bounds.find?
            (fun p => p.1 == (source_id, current_id)) with
        | none =>
          { result := .error .missingBounds, ops := [], counter := registry,
            should_run := none }
        | some pb =>
          let should_run : Bool :=
            if counter < pb.2.1 ∨ counter > pb.2.2 then false else should_run0
          { result := .ok,
            ops :=
              if should_run then
                [DeviceOp.recv dest_addr buffer.element_type
                  buffer.element_count source_id]
              else [],
            counter := some (counter + 1),
            should_run := some should_run }
      else
        { result := .ok,
          ops :=
            if should_run0 then
              [DeviceOp.recv dest_addr buffer.element_type
                buffer.element_count source_id]
            else [],
          counter := counter0,
          should_run := some should_run0 }
    | none =>
      { result := .ok,
        ops := [DeviceOp.memZero dest_addr dest_addr.size],
        counter := counter0,
        should_run := none }
  | bufs =>
    { result := .error (.wrongBufferCount bufs.length), ops := [],
      counter := counter0, should_run := none }

/-- The integer value a counter registry state denotes: the stored value, or
zero when the counter has not been created yet. -/
def counterVal (s : Option Int) : Int :=
  s.getD 0

/-- `N` sequential invocations of `RunNcclCollective` in the same device
context, threading the counter registry state; yields the list of outcomes in
order together with the final registry state. -/
def runSeq (cfg : NcclP2PConfig) (device_buffers : List DeviceBufferPair)
    (lid : LogicalID) : Nat → Option Int → List RunOutcome × Option Int
  | 0, s => ([], s)
  | n + 1, s =>
    let o := RunNcclCollective cfg device_buffers lid s
    let rest := runSeq cfg device_buffers lid n o.counter
    (o :: rest.1, rest.2)

/-- The gate as an explicit function of the bound and pre-increment counter
value: `false` when the counter lies outside `[lo, hi]`, the initial `true`
otherwise. -/
def shouldRunGate (lo hi c : Int) : Bool :=
  if c < lo ∨ c > hi then false else true

/-- A concrete buffer pair used in witnesses and counterexamples. -/
def bEx : DeviceBufferPair := ⟨3, 16, ⟨100, 64⟩, ⟨200, 64⟩⟩

/-- A concrete logical id (replica 0, partition 5) used in witnesses. -/
def lidEx : LogicalID := ⟨0, 5⟩

/-- Conditional topology: device 0 receives from device 1 during invocations
`[1, 2]`. -/
def cfgCond : NcclP2PConfig :=
  { group_mode := .kCrossReplica, validation_kind := .kConditional,
    id_to_source_target := [(0, ⟨some 1, none⟩)],
    source_target_to_bounds := [((1, 0), (1, 2))] }

/-- Conditional topology in which device 0 has an entry but no source peer. -/
def cfgNoSrc : NcclP2PConfig :=
  { group_mode := .kCrossReplica, validation_kind := .kConditional,
    id_to_source_target := [(0, ⟨none, some 1⟩)],
    source_target_to_bounds := [] }

/-- Valid-kind topology in which device 0 is entirely absent (only device 7
has an entry). -/
def cfgAbsent : NcclP2PConfig :=
  { group_mode := .kCrossReplica, validation_kind := .kValid,
    id_to_source_target := [(7, ⟨some 1, none⟩)],
    source_target_to_bounds := [] }

/-- Conditional topology whose bounds table lacks the entry for the
`(source, target)` pair `(1, 0)` used by device 0. -/
def cfgMiss : NcclP2PConfig :=
  { group_mode := .kCrossReplica, validation_kind := .kConditional,
    id_to_source_target := [(0, ⟨some 1, none⟩)],
    source_target_to_bounds := [((2, 3), (0, 0))] }

/-- Valid-kind topology: device 0 receives from device 1 unconditionally. -/
def cfgValid : NcclP2PConfig :=
  { group_mode := .kCrossReplica, validation_kind := .kValid,
    id_to_source_target := [(0, ⟨some 1, none⟩)],
    source_target_to_bounds := [] }

lemma GetCounter_fst (s : Option Int) : (GetCounter s).1 = counterVal s := by
  cases s <;> rfl

lemma GetCounter_snd (s : Option Int) :
    (GetCounter s).2 = some (counterVal s) := by
  cases s <;> rfl

lemma shouldRunGate_eq_decide (lo hi c : Int) :
    shouldRunGate lo hi c = decide (lo ≤ c ∧ c ≤ hi) := by
  unfold shouldRunGate
  by_cases h1 : lo ≤ c <;> by_cases h2 : c ≤ hi
  all_goals simp [h1, h2]
  all_goals omega

/-- One conditional invocation with a source peer and a bounds entry: returns
success, issues a receive exactly when the gate holds, and bumps the counter
to its previous value plus one. -/
lemma run_cond_eq (cfg : NcclP2PConfig) (b : DeviceBufferPair)
    (lid : LogicalID) (sid : Int) (key : Int × Int) (lo hi : Int)
    (s : Option Int)
    (hkind : cfg.validation_kind = ValidationKind.kConditional)
    (hsrc : (GetSourceTarget cfg.id_to_source_target
        (currentIdOf cfg.group_mode lid)).source = some sid)
    (hbound : cfg.source_target_to_bounds.find?
        (fun p => p.1 == (sid, currentIdOf cfg.group_mode lid)) =
      some (key, (lo, hi))) :
    RunNcclCollective cfg [b] lid s =
      { result := .ok,
        ops :=
          if shouldRunGate lo hi (counterVal s) then
            [DeviceOp.recv b.destination_buffer b.element_type
              b.element_count sid]
          else [],
        counter := some (counterVal s + 1),
        should_run := some (shouldRunGate lo hi (counterVal s)) } := by
  simp only [RunNcclCollective, hsrc, hkind, hbound, GetCounter_fst,
    GetCounter_snd, shouldRunGate, if_pos, reduceIte]
  rfl

/-- Characterization of `N` sequential conditional invocations starting from
an already-created counter holding `c`: the final counter holds `c + N` and
the `i`-th invocation's gate is `shouldRunGate lo hi (c + i)`. -/
lemma runSeq_cond (cfg : NcclP2PConfig) (b : DeviceBufferPair)
    (lid : LogicalID) (sid : Int) (key : Int × Int) (lo hi : Int)
    (hkind : cfg.validation_kind = ValidationKind.kConditional)
    (hsrc : (GetSourceTarget cfg.id_to_source_target
        (currentIdOf cfg.group_mode lid)).source = some sid)
    (hbound : cfg.source_target_to_bounds.find?
        (fun p => p.1 == (sid, currentIdOf cfg.group_mode lid)) =
      some (key, (lo, hi))) :
    ∀ (N : Nat) (c : Int),
      (runSeq cfg [b] lid N (some c)).2 = some (c + N) ∧
      ∀ i, i < N →
        ((runSeq cfg [b] lid N (some c)).1.map RunOutcome.should_run)[i]? =
          some (some (shouldRunGate lo hi (c + i))) := by
  intro N
  induction N with
  | zero =>
    intro c
    refine ⟨by simp [runSeq], ?_⟩
    intro i hi0
    omega
  | succ n ih =>
    intro c
    have hrun := run_cond_eq cfg b lid sid key lo hi (some c) hkind hsrc hbound
    have hc : counterVal (some c) = c := rfl
    rw [hc] at hrun
    constructor
    · show (runSeq cfg [b] lid (n + 1) (some c)).2 = some (c + (n + 1))
      simp only [runSeq, hrun]
      rcases ih (c + 1) with ⟨h2, -⟩
      rw [h2]
      congr 1
      ring
    · intro i hilt
      simp only [runSeq, hrun]
      cases i with
      | zero =>
        simp
      | succ j =>
        have hjlt : j < n := by omega
        rcases ih (c + 1) with ⟨-, h1⟩
        have := h1 j hjlt
        simp only [List.map_cons, List.getElem?_cons_succ]
        rw [this]
        congr 3
        push_cast
        ring

/-- C1: with ValidationKind = Conditional, a present source id and bound
`[lo, hi]` for the `(source, current)` pair, across `N` sequential
invocations in the same device context `should_run` is true exactly for the
0-based invocation indices `i < N` with `lo ≤ i ≤ hi`, and the per-context
counter equals `N` after the `N` invocations. -/
theorem conditional_window_gate (cfg : NcclP2PConfig) (b : DeviceBufferPair)
    (lid : LogicalID) (sid : Int) (key : Int × Int) (lo hi : Int) (N : Nat)
    (hkind : cfg.validation_kind = ValidationKind.kConditional)
    (hsrc : (GetSourceTarget cfg.id_to_source_target
        (currentIdOf cfg.group_mode lid)).source = some sid)
    (hbound : cfg.source_target_to_bounds.find?
        (fun p => p.1 == (sid, currentIdOf cfg.group_mode lid)) =
      some (key, (lo, hi))) :
    counterVal (runSeq cfg [b] lid N none).2 = N ∧
    ∀ i, i < N →
      ((runSeq cfg [b] lid N none).1.map RunOutcome.should_run)[i]? =
        some (some (decide (lo ≤ (i : Int) ∧ (i : Int) ≤ hi))) := by
  have hrun := run_cond_eq cfg b lid sid key lo hi none hkind hsrc hbound
  have hc : counterVal none = 0 := rfl
  rw [hc] at hrun
  cases N with
  | zero =>
    refine ⟨rfl, ?_⟩
    intro i hi0
    omega
  | succ n =>
    have hmain := runSeq_cond cfg b lid sid key lo hi hkind hsrc hbound n 1
    constructor
    · show counterVal (runSeq cfg [b] lid (n + 1) none).2 = ((n : Int) + 1)
      simp only [runSeq, hrun, zero_add]
      rcases hmain with ⟨h2, -⟩
      rw [h2]
      show (1 + (n : Int)) = (n : Int) + 1
      ring
    · intro i hilt
      simp only [runSeq, hrun, zero_add]
      cases i with
      | zero =>
        simp [shouldRunGate_eq_decide]
      | succ j =>
        have hjlt : j < n := by omega
        rcases hmain with ⟨-, h1⟩
        have := h1 j hjlt
        simp only [List.map_cons, List.getElem?_cons_succ]
        rw [this, shouldRunGate_eq_decide]
        simp only [Option.some.injEq, decide_eq_decide]
        push_cast
        omega

/-- Witness for C1: the spec's own scenario — bound `[1, 2]`, four
invocations — yields gate values false, true, true, false and a final counter
of four. -/
theorem conditional_window_gate_witness :
    counterVal (runSeq cfgCond [bEx] lidEx 4 none).2 = (4 : Nat) ∧
    ∀ i : Nat, i < 4 →
      ((runSeq cfgCond [bEx] lidEx 4 none).1.map RunOutcome.should_run)[i]? =
        some (some (decide ((1 : Int) ≤ (i : Int) ∧ (i : Int) ≤ (2 : Int)))) :=
  conditional_window_gate cfgCond bEx lidEx 1 (1, 0) 1 2 4 rfl rfl rfl

/-- C2, counterexample: with ValidationKind = Conditional, an invocation for
a device whose topology entry has no source id succeeds, issues a zero-fill
(no receive), and leaves the execution counter at its prior value 0 instead
of incrementing it to 1 — refuting "every invocation of Execute ...
increments that context's execution counter by exactly one ... including
invocations on which no receive is issued (gate false or no source peer)". -/
theorem counter_not_incremented_without_source :
    (RunNcclCollective cfgNoSrc [bEx] lidEx (some 0)).result = RunResult.ok ∧
    (RunNcclCollective cfgNoSrc [bEx] lidEx (some 0)).ops =
      [DeviceOp.memZero bEx.destination_buffer bEx.destination_buffer.size] ∧
    (RunNcclCollective cfgNoSrc [bEx] lidEx (some 0)).counter = some 0 := by
  refine ⟨rfl, rfl, rfl⟩

/-- C2, amended: with ValidationKind = Conditional, an invocation increments
the per-context counter by exactly one iff a source id is present (and its
bounds entry exists), regardless of the gate outcome; an invocation for a
device with no source id leaves the counter registry untouched. -/
theorem counter_increment_amended (cfg : NcclP2PConfig)
    (b : DeviceBufferPair) (lid : LogicalID) (s : Option Int)
    (hkind : cfg.validation_kind = ValidationKind.kConditional) :
    (∀ (sid : Int) (key : Int × Int) (lo hi : Int),
      (GetSourceTarget cfg.id_to_source_target
          (currentIdOf cfg.group_mode lid)).source = some sid →
      cfg.source_target_to_bounds.find?
          (fun p => p.1 == (sid, currentIdOf cfg.group_mode lid)) =
        some (key, (lo, hi)) →
      (RunNcclCollective cfg [b] lid s).counter = some (counterVal s + 1)) ∧
    ((GetSourceTarget cfg.id_to_source_target
        (currentIdOf cfg.group_mode lid)).source = none →
      (RunNcclCollective cfg [b] lid s).counter = s) := by
  constructor
  · intro sid key lo hi hsrc hbound
    rw [run_cond_eq cfg b lid sid key lo hi s hkind hsrc hbound]
  · intro hsrc
    simp only [RunNcclCollective, hsrc]

/-- Witness for the amended C2 at a concrete conditional topology with a
source peer: starting from a counter holding 0, the invocation leaves the
counter at 1. -/
theorem counter_increment_amended_witness :
    (∀ (sid : Int) (key : Int × Int) (lo hi : Int),
      (GetSourceTarget cfgCond.id_to_source_target
          (currentIdOf cfgCond.group_mode lidEx)).source = some sid →
      cfgCond.source_target_to_bounds.find?
          (fun p => p.1 == (sid, currentIdOf cfgCond.group_mode lidEx)) =
        some (key, (lo, hi)) →
      (RunNcclCollective cfgCond [bEx] lidEx (some 0)).counter =
        some (counterVal (some 0) + 1)) ∧
    ((GetSourceTarget cfgCond.id_to_source_target
        (currentIdOf cfgCond.group_mode lidEx)).source = none →
      (RunNcclCollective cfgCond [bEx] lidEx (some 0)).counter = some 0) :=
  counter_increment_amended cfgCond bEx lidEx (some 0) rfl

/-- C3, counterexample: device 0 is entirely absent from the topology of
`cfgAbsent`, yet its invocation issues a zero-fill of the destination
buffer — refuting "a device whose logical id is entirely absent from the
topology performs neither a zero-fill nor a receive". -/
theorem absent_device_zero_fills :
    cfgAbsent.id_to_source_target.find?
      (fun p => p.1 == currentIdOf cfgAbsent.group_mode lidEx) = none ∧
    (RunNcclCollective cfgAbsent [bEx] lidEx (some 0)).ops =
      [DeviceOp.memZero bEx.destination_buffer
        bEx.destination_buffer.size] := by
  refine ⟨rfl, rfl⟩

/-- C3, amended: for every ValidationKind, a device whose logical id is
entirely absent from the topology is treated like a device with no source
id: its invocation issues exactly one zero-fill of the whole destination
region, no receive, succeeds, and leaves the counter untouched. -/
theorem absent_device_amended (cfg : NcclP2PConfig) (b : DeviceBufferPair)
    (lid : LogicalID) (s : Option Int)
    (habs : cfg.id_to_source_target.find?
      (fun p => p.1 == currentIdOf cfg.group_mode lid) = none) :
    (RunNcclCollective cfg [b] lid s).ops =
      [DeviceOp.memZero b.destination_buffer b.destination_buffer.size] ∧
    (RunNcclCollective cfg [b] lid s).result = RunResult.ok ∧
    (RunNcclCollective cfg [b] lid s).counter = s := by
  have hsrc : (GetSourceTarget cfg.id_to_source_target
      (currentIdOf cfg.group_mode lid)).source = none := by
    simp only [GetSourceTarget, habs]
  simp [RunNcclCollective, hsrc]

/-- Witness for the amended C3 at the concrete topology `cfgAbsent`. -/
theorem absent_device_amended_witness :
    (RunNcclCollective cfgAbsent [bEx] lidEx (some 0)).ops =
      [DeviceOp.memZero bEx.destination_buffer
        bEx.destination_buffer.size] ∧
    (RunNcclCollective cfgAbsent [bEx] lidEx (some 0)).result =
      RunResult.ok ∧
    (RunNcclCollective cfgAbsent [bEx] lidEx (some 0)).counter = some 0 :=
  absent_device_amended cfgAbsent bEx lidEx (some 0) rfl

/-- C4: for every ValidationKind, a device whose topology entry is present
but has no source id issues exactly one zero-fill covering the whole
destination region, never a receive, succeeds, and leaves the counter
untouched. -/
theorem no_source_zero_fill (cfg : NcclP2PConfig) (b : DeviceBufferPair)
    (lid : LogicalID) (s : Option Int) (key : Int) (tgt : Option Int)
    (hentry : cfg.id_to_source_target.find?
        (fun p => p.1 == currentIdOf cfg.group_mode lid) =
      some (key, { source := none, target := tgt })) :
    (RunNcclCollective cfg [b] lid s).ops =
      [DeviceOp.memZero b.destination_buffer b.destination_buffer.size] ∧
    (RunNcclCollective cfg [b] lid s).result = RunResult.ok ∧
    (RunNcclCollective cfg [b] lid s).counter = s := by
  have hsrc : (GetSourceTarget cfg.id_to_source_target
      (currentIdOf cfg.group_mode lid)).source = none := by
    simp only [GetSourceTarget, hentry]
  simp [RunNcclCollective, hsrc]

/-- Witness for C4 at the concrete topology `cfgNoSrc` (entry present,
source absent). -/
theorem no_source_zero_fill_witness :
    (RunNcclCollective cfgNoSrc [bEx] lidEx (some 3)).ops =
      [DeviceOp.memZero bEx.destination_buffer
        bEx.destination_buffer.size] ∧
    (RunNcclCollective cfgNoSrc [bEx] lidEx (some 3)).result =
      RunResult.ok ∧
    (RunNcclCollective cfgNoSrc [bEx] lidEx (some 3)).counter = some 3 :=
  no_source_zero_fill cfgNoSrc bEx lidEx (some 3) 0 (some 1) rfl

/-- C5: when a source id is present and the kind is not Conditional,
`should_run` is false for ValidationKind = Invalid (for any counter state)
and true for ValidationKind = Valid. -/
theorem invalid_valid_gate (cfg : NcclP2PConfig) (b : DeviceBufferPair)
    (lid : LogicalID) (s : Option Int) (sid : Int)
    (hsrc : (GetSourceTarget cfg.id_to_source_target
        (currentIdOf cfg.group_mode lid)).source = some sid)
    (hkind : cfg.validation_kind ≠ ValidationKind.kConditional) :
    (RunNcclCollective cfg [b] lid s).should_run =
      some (decide (cfg.validation_kind = ValidationKind.kValid)) := by
  cases hv : cfg.validation_kind with
  | kInvalid => simp [RunNcclCollective, hsrc, hv]
  | kValid => simp [RunNcclCollective, hsrc, hv]
  | kConditional => exact absurd hv hkind

/-- Witness for C5 at the Valid-kind topology `cfgValid`: the gate is
true. -/
theorem invalid_valid_gate_witness :
    (RunNcclCollective cfgValid [bEx] lidEx none).should_run =
      some (decide (cfgValid.validation_kind = ValidationKind.kValid)) :=
  invalid_valid_gate cfgValid bEx lidEx none 1 rfl (by decide)

/-- C6: when the operand conversion yields a number of device buffer pairs
different from one, the invocation fails with the operand-count error, no
device-side operation is issued, and the counter registry is untouched (not
even lazily created). -/
theorem wrong_operand_count_fails_early (cfg : NcclP2PConfig)
    (bufs : List DeviceBufferPair) (lid : LogicalID) (s : Option Int)
    (hn : bufs.length ≠ 1) :
    RunNcclCollective cfg bufs lid s =
      { result := .error (.wrongBufferCount bufs.length), ops := [],
        counter := s, should_run := none } := by
  rcases bufs with _ | ⟨b1, _ | ⟨b2, rest⟩⟩
  · rfl
  · exact absurd rfl hn
  · rfl

/-- Witness for C6: two operand buffers fail with the operand-count error
and no device-side call. -/
theorem wrong_operand_count_fails_early_witness :
    RunNcclCollective cfgValid [bEx, bEx] lidEx (some 0) =
      { result := .error (.wrongBufferCount 2), ops := [],
        counter := some 0, should_run := none } :=
  wrong_operand_count_fails_early cfgValid [bEx, bEx] lidEx (some 0)
    (by decide)

/-- C7: with ValidationKind = Conditional, a present source id, and no bounds
entry for the `(source, current)` pair, the invocation fails with the
missing-bounds configuration error and issues no receive and no zero-fill. -/
theorem missing_bounds_config_error (cfg : NcclP2PConfig)
    (b : DeviceBufferPair) (lid : LogicalID) (s : Option Int) (sid : Int)
    (hkind : cfg.validation_kind = ValidationKind.kConditional)
    (hsrc : (GetSourceTarget cfg.id_to_source_target
        (currentIdOf cfg.group_mode lid)).source = some sid)
    (hmiss : cfg.source_target_to_bounds.find?
        (fun p => p.1 == (sid, currentIdOf cfg.group_mode lid)) = none) :
    (RunNcclCollective cfg [b] lid s).result =
      RunResult.error RecvError.missingBounds ∧
    (RunNcclCollective cfg [b] lid s).ops = [] := by
  simp [RunNcclCollective, hsrc, hkind, hmiss]

/-- Witness for C7 at the concrete topology `cfgMiss`, whose bounds table
lacks the pair `(1, 0)`. -/
theorem missing_bounds_config_error_witness :
    (RunNcclCollective cfgMiss [bEx] lidEx none).result =
      RunResult.error RecvError.missingBounds ∧
    (RunNcclCollective cfgMiss [bEx] lidEx none).ops = [] :=
  missing_bounds_config_error cfgMiss bEx lidEx none 1 rfl rfl rfl

/-- C8: on any invocation whose gate evaluates to false, no device-side
operation is issued. -/
theorem gate_false_no_ops (cfg : NcclP2PConfig)
    (bufs : List DeviceBufferPair) (lid : LogicalID) (s : Option Int)
    (hsr : (RunNcclCollective cfg bufs lid s).should_run = some false) :
    (RunNcclCollective cfg bufs lid s).ops = [] := by
  rcases bufs with _ | ⟨b1, _ | ⟨b2, rest⟩⟩
  · simp [RunNcclCollective] at hsr
  · simp only [RunNcclCollective] at hsr ⊢
    rcases h : (GetSourceTarget cfg.id_to_source_target
        (currentIdOf cfg.group_mode lid)).source with _ | sid
    · simp [h] at hsr
    · simp only [h] at hsr ⊢
      by_cases hk : cfg.validation_kind = ValidationKind.kConditional
      · simp only [hk, reduceIte] at hsr ⊢
        rcases hb : cfg.source_target_to_bounds.find?
            (fun p => p.1 == (sid, currentIdOf cfg.group_mode lid))
          with _ | pb
        · simp [hb] at hsr
        · simp only [hb] at hsr ⊢
          simp only [Option.some.injEq] at hsr
          simp at hsr ⊢
          exact hsr
      · simp only [if_neg hk] at hsr ⊢
        simp only [Option.some.injEq] at hsr
        simp [hsr]
  · simp [RunNcclCollective] at hsr

/-- Witness for C8 at an Invalid-kind topology with a source peer: the gate
is false and no operation is issued. -/
theorem gate_false_no_ops_witness :
    (RunNcclCollective
      { cfgValid with validation_kind := ValidationKind.kInvalid }
      [bEx] lidEx none).ops = [] :=
  gate_false_no_ops
    { cfgValid with validation_kind := ValidationKind.kInvalid }
    [bEx] lidEx none rfl

/-- C9: every invocation issues at most one device-side data operation —
never both a receive and a zero-fill. -/
theorem at_most_one_device_op (cfg : NcclP2PConfig)
    (bufs : List DeviceBufferPair) (lid : LogicalID) (s : Option Int) :
    (RunNcclCollective cfg bufs lid s).ops.length ≤ 1 := by
  rcases bufs with _ | ⟨b1, _ | ⟨b2, rest⟩⟩
  · simp [RunNcclCollective]
  · simp only [RunNcclCollective]
    rcases h : (GetSourceTarget cfg.id_to_source_target
        (currentIdOf cfg.group_mode lid)).source with _ | sid
    · simp [h]
    · simp only [h]
      by_cases hk : cfg.validation_kind = ValidationKind.kConditional
      · simp only [hk, reduceIte]
        rcases hb : cfg.source_target_to_bounds.find?
            (fun p => p.1 == (sid, currentIdOf cfg.group_mode lid))
          with _ | pb
        · simp [hb]
        · simp only [hb]
          split <;> simp
      · simp only [if_neg hk]
        split <;> simp
  · simp [RunNcclCollective]

/-- C10: when the invocation fails with the missing-bounds error, the
counter value is unchanged (the unconditional increment is only reached
after a successful bounds lookup), although the counter itself has been
lazily created by the lookup. -/
theorem missing_bounds_counter_unchanged (cfg : NcclP2PConfig)
    (b : DeviceBufferPair) (lid : LogicalID) (s : Option Int) (sid : Int)
    (hkind : cfg.validation_kind = ValidationKind.kConditional)
    (hsrc : (GetSourceTarget cfg.id_to_source_target
        (currentIdOf cfg.group_mode lid)).source = some sid)
    (hmiss : cfg.source_target_to_bounds.find?
        (fun p => p.1 == (sid, currentIdOf cfg.group_mode lid)) = none) :
    (RunNcclCollective cfg [b] lid s).counter = some (counterVal s) ∧
    counterVal (RunNcclCollective cfg [b] lid s).counter = counterVal s := by
  simp [RunNcclCollective, hsrc, hkind, hmiss, GetCounter_snd, counterVal]

/-- Witness for C10 at `cfgMiss` with a counter already holding 5: the
failing invocation leaves it at 5. -/
theorem missing_bounds_counter_unchanged_witness :
    (RunNcclCollective cfgMiss [bEx] lidEx (some 5)).counter =
      some (counterVal (some 5)) ∧
    counterVal (RunNcclCollective cfgMiss [bEx] lidEx (some 5)).counter =
      counterVal (some 5) :=
  missing_bounds_counter_unchanged cfgMiss bEx lidEx (some 5) 1 rfl rfl rfl

end NcclRecv
